import Mathlib

/-!
Shallow embedding of the photosynthesis limiting-factor model.

Sources embedded here:
* `photosynthesisModel.js` — factor normalizers and `calculatePhotosynthesisRate`
* `limitingFactor.js` — `identifyLimitingFactor` over normalized factors
* `biologyEngine.js` — the raw-factor efficiency curves and its own
  `identifyLimitingFactor`
* `recommendationEngine.js` — `validateChange`
* `timeLapseSimulation.js` — `simulateGrowth`, `compareScenarios`

JavaScript numbers are modelled as real numbers; `Math.exp` is `Real.exp`,
`Math.min`/`Math.max` are `min`/`max`, `Math.abs` is `|·|`, and
`Math.round` is Mathlib's `round` (both send `x` to `⌊x + 1/2⌋`).
-/

namespace PhotoSpec

/-- `{ light, co2, temperature }` normalized 0-1 (the `factors` object). -/
structure NormalizedFactors where
  light : ℝ
  co2 : ℝ
  temperature : ℝ

/-- Return value of `calculatePhotosynthesisRate`. -/
structure RateResult where
  rate : ℝ
  factors : NormalizedFactors

/-- `normalizeLightFactor` from photosynthesisModel.js:
`if (light <= 0) return 0;` then the Michaelis-Menten-like curve
`light / (light + OPTIMAL_VALUES.light * 0.3)` capped at 1. -/
noncomputable def normalizeLightFactor (light : ℝ) : ℝ :=
  if light ≤ 0 then 0
  else min (light / (light + 800 * 0.3)) 1

/-- `normalizeCO2Factor` from photosynthesisModel.js:
`if (co2 <= 0) return 0;` then
`Math.min(co2 / 400, 1.0) * (1 - Math.exp(-co2 / 400))` capped at 1. -/
noncomputable def normalizeCO2Factor (co2 : ℝ) : ℝ :=
  if co2 ≤ 0 then 0
  else min (min (co2 / 400) 1 * (1 - Real.exp (-co2 / 400))) 1

/-- `normalizeTemperatureFactor` from photosynthesisModel.js:
0.05 outside `TEMP_RANGE` = [0, 45] (boundaries included), otherwise the
bell curve `Math.exp(-(t - 25)^2 / (2 * 8 * 8))`. -/
noncomputable def normalizeTemperatureFactor (temperature : ℝ) : ℝ :=
  if temperature ≤ 0 then 0.05
  else if 45 ≤ temperature then 0.05
  else Real.exp (-(temperature - 25) ^ 2 / (2 * 8 * 8))

/-- `calculatePhotosynthesisRate` from photosynthesisModel.js:
normalize the three inputs and take `Math.min` of the three factors. -/
noncomputable def calculatePhotosynthesisRate (light co2 temperature : ℝ) :
    RateResult :=
  let lightFactor := normalizeLightFactor light
  let co2Factor := normalizeCO2Factor co2
  let tempFactor := normalizeTemperatureFactor temperature
  { rate := min lightFactor (min co2Factor tempFactor)
    factors := { light := lightFactor, co2 := co2Factor, temperature := tempFactor } }

/-- The three environmental factor names (the strings "light", "co2",
"temperature" of the JavaScript code). -/
inductive Factor where
  | light
  | co2
  | temperature
deriving DecidableEq

/-- Severity buckets of limitingFactor.js. -/
inductive Severity where
  | severe
  | moderate
  | mild
deriving DecidableEq

/-- Return value of limitingFactor.js's `identifyLimitingFactor`
(the explanation string is not modelled). -/
structure LimitingFactorReport where
  limitingFactor : Factor
  severity : Severity
  value : ℝ

/-- `identifyLimitingFactor` from limitingFactor.js: compute the minimum of
the three normalized factors, then test `light === minValue` first,
`co2 === minValue` second, temperature otherwise; severity from fixed
thresholds on the minimum. -/
noncomputable def identifyLimitingFactor (nf : NormalizedFactors) :
    LimitingFactorReport :=
  let minValue := min nf.light (min nf.co2 nf.temperature)
  { limitingFactor :=
      if nf.light = minValue then .light
      else if nf.co2 = minValue then .co2
      else .temperature
    severity :=
      if minValue < 0.3 then .severe
      else if minValue < 0.6 then .moderate
      else .mild
    value := minValue }

end PhotoSpec

namespace PhotoSpec.BiologyEngine

/-- biologyEngine.js `calculateFactorEfficiency` instantiated at the light
thresholds (`optimal = 85`, `min = 5`, `max = 100`). -/
noncomputable def lightEfficiency (value : ℝ) : ℝ :=
  if value ≤ 5 ∨ 100 ≤ value then 0
  else if value ≤ 85 then min 1 (value / 85)
  else max 0.7 (1 - ((value - 85) / (100 - 85)) * 0.3)

/-- biologyEngine.js `calculateFactorEfficiency` instantiated at the CO₂
thresholds (`optimal = 400`, `min = 150`, `max = 1000`). -/
noncomputable def co2Efficiency (value : ℝ) : ℝ :=
  if value ≤ 150 ∨ 1000 ≤ value then 0
  else min 1 (value / 400)

/-- biologyEngine.js `calculateFactorEfficiency` instantiated at the
temperature thresholds (`optimal = 25`, `min = 0`, `max = 50`):
`Math.max(0, 1 - Math.pow(|value - 25| / 20, 2))`. -/
noncomputable def tempEfficiency (value : ℝ) : ℝ :=
  if value ≤ 0 ∨ 50 ≤ value then 0
  else max 0 (1 - (|value - 25| / 20) ^ 2)

/-- Raw factors fed to biologyEngine.js entry points. -/
structure BioFactors where
  light : ℝ
  co2 : ℝ
  temperature : ℝ

/-- biologyEngine.js `identifyLimitingFactor`: among the factors whose
efficiency equals the minimum, `temperature` is returned first, then
`light`, then `co2` (the `includes` priority chain). -/
noncomputable def identifyLimitingFactor (factors : BioFactors) : Factor :=
  let le := lightEfficiency factors.light
  let ce := co2Efficiency factors.co2
  let te := tempEfficiency factors.temperature
  let minEfficiency := min le (min ce te)
  if te = minEfficiency then .temperature
  else if le = minEfficiency then .light
  else .co2

end PhotoSpec.BiologyEngine

namespace PhotoSpec

/-- Raw environmental values `{ light, co2, temperature }` as passed to
recommendationEngine.js. -/
structure RawValues where
  light : ℝ
  co2 : ℝ
  temperature : ℝ

/-- `currentValues[factorToChange]` — field access by factor name. -/
def RawValues.get (v : RawValues) : Factor → ℝ
  | .light => v.light
  | .co2 => v.co2
  | .temperature => v.temperature

/-- `validateChange` from recommendationEngine.js (the returned `reason`
string is not modelled; `willImprove` is the Bool). A non-limiting factor
never improves; temperature improves iff it moves strictly closer to the
optimum 25; light and CO₂ improve iff the proposed value is strictly
larger than the current one. -/
noncomputable def validateChange (factorToChange : Factor) (proposedValue : ℝ)
    (currentValues : RawValues) (currentLimitingFactor : Factor) : Bool :=
  if factorToChange ≠ currentLimitingFactor then false
  else
    let currentValue := currentValues.get factorToChange
    match factorToChange with
    | .temperature => decide (|proposedValue - 25| < |currentValue - 25|)
    | _ => decide (currentValue < proposedValue)

/-- Environment passed to the growth simulator. -/
structure Conditions where
  light : ℝ
  co2 : ℝ
  temperature : ℝ

/-- One entry of the `results` array of `simulateGrowth`. -/
structure DayRecord where
  day : ℕ
  rate : ℝ
  biomass : ℝ
  dailyGain : ℝ
  limitingFactor : Factor
  stress : ℝ
  efficiency : ℤ

/-- `Math.round(x * 100) / 100`. -/
noncomputable def roundTo2 (x : ℝ) : ℝ := (round (x * 100) : ℤ) / 100

/-- `Math.round(x * 1000) / 1000`. -/
noncomputable def roundTo3 (x : ℝ) : ℝ := (round (x * 1000) : ℤ) / 1000

/-- `Math.round(x * 10) / 10`. -/
noncomputable def roundTo1 (x : ℝ) : ℝ := (round (x * 10) : ℤ) / 10

/-- One day of the `simulateGrowth` loop body, acting on the carried
`(cumulativeGrowth, cumulativeStress)` accumulators. Returns
`(biomassGain, newBiomass, newStress)`:
grow by `biomass * (rate * 0.05)`; if `rate < 0.4` accumulate
`0.4 - rate` of stress and subtract
`biomass * min(stress * 0.02, 0.3) * 0.01`, otherwise decay stress by
`0.1` floored at 0. -/
noncomputable def growthStep (rate biomass stress : ℝ) : ℝ × ℝ × ℝ :=
  let biomassGain := biomass * (rate * 0.05)
  let grown := biomass + biomassGain
  if rate < 0.4 then
    let newStress := stress + (0.4 - rate)
    let stressPenalty := min (newStress * 0.02) 0.3
    (biomassGain, grown - grown * stressPenalty * 0.01, newStress)
  else
    (biomassGain, grown, max 0 (stress - 0.1))

/-- The day loop of `simulateGrowth`, recursing on the number of remaining
days and carrying the biomass and stress accumulators. -/
noncomputable def simulateGrowthAux (conditions : Conditions)
    (biomass stress : ℝ) (day : ℕ) : (remaining : ℕ) → List DayRecord
  | 0 => []
  | n + 1 =>
    let photoResult := calculatePhotosynthesisRate conditions.light
      conditions.co2 conditions.temperature
    let rate := photoResult.rate
    let step := growthStep rate biomass stress
    let limiting := identifyLimitingFactor photoResult.factors
    { day := day
      rate := roundTo3 rate
      biomass := roundTo2 step.2.1
      dailyGain := roundTo2 step.1
      limitingFactor := limiting.limitingFactor
      stress := roundTo2 step.2.2
      efficiency := round (rate * 100) }
      :: simulateGrowthAux conditions step.2.1 step.2.2 (day + 1) n

/-- `simulateGrowth(conditions, days, initialBiomass)` from
timeLapseSimulation.js: run the day loop from day 1 with zero initial
stress. -/
noncomputable def simulateGrowth (conditions : Conditions) (days : ℕ)
    (initialBiomass : ℝ) : List DayRecord :=
  simulateGrowthAux conditions initialBiomass 0 1 days

/-- The `comparison` object of `compareScenarios`. -/
structure Comparison where
  baselineFinalBiomass : ℝ
  alternativeFinalBiomass : ℝ
  biomassDifference : ℝ
  percentImprovement : ℝ
  betterScenario : String

/-- `compareScenarios(baseConditions, altConditions, days)` from
timeLapseSimulation.js: run both simulations with the default initial
biomass of 100 and compare final records. Accessing the last element of
an empty trajectory is a JavaScript runtime error, modelled as `none`. -/
noncomputable def compareScenarios (baseConditions altConditions : Conditions)
    (days : ℕ) : Option Comparison :=
  let baseGrowth := simulateGrowth baseConditions days 100
  let altGrowth := simulateGrowth altConditions days 100
  match baseGrowth.getLast?, altGrowth.getLast? with
  | some baseFinal, some altFinal =>
    let biomassDifference := altFinal.biomass - baseFinal.biomass
    let percentImprovement := biomassDifference / baseFinal.biomass * 100
    some
      { baselineFinalBiomass := baseFinal.biomass
        alternativeFinalBiomass := altFinal.biomass
        biomassDifference := roundTo2 biomassDifference
        percentImprovement := roundTo1 percentImprovement
        betterScenario :=
          if 0 < biomassDifference then "alternative" else "baseline" }
  | _, _ => none

/-- The `betterScenario` field of an optional comparison. -/
def comparisonBetter : Option Comparison → Option String :=
  Option.map Comparison.betterScenario

/-- The `biomassDifference` field of an optional comparison. -/
def comparisonDiff : Option Comparison → Option ℝ :=
  Option.map Comparison.biomassDifference

/-- All recorded biomasses of a trajectory are non-negative. -/
def nonNegBiomass (l : List DayRecord) : Prop := ∀ r ∈ l, 0 ≤ r.biomass

end PhotoSpec

namespace PhotoSpec

/-! ## Numeric bounds on the exponential -/

lemma exp_one_gt_94 : (9/4 : ℝ) < Real.exp 1 :=
  lt_trans (by norm_num) Real.exp_one_gt_d9

lemma exp_one_lt_3 : Real.exp 1 < 3 :=
  lt_trans Real.exp_one_lt_d9 (by norm_num)

lemma exp_neg_one_lt : Real.exp (-1) < 4/9 := by
  rw [Real.exp_neg]
  calc (Real.exp 1)⁻¹ < ((9:ℝ)/4)⁻¹ := inv_lt_inv_of_lt (by norm_num) exp_one_gt_94
  _ = 4/9 := by norm_num

lemma exp_neg_one_gt : (3/13 : ℝ) < Real.exp (-1) := by
  rw [Real.exp_neg]
  calc (3/13 : ℝ) = ((13:ℝ)/3)⁻¹ := by norm_num
  _ < (Real.exp 1)⁻¹ :=
      inv_lt_inv_of_lt (Real.exp_pos 1) (lt_trans exp_one_lt_3 (by norm_num))

lemma exp_two_gt : (5 : ℝ) < Real.exp 2 := by
  have h : Real.exp 2 = Real.exp 1 * Real.exp 1 := by
    rw [← Real.exp_add]; norm_num
  nlinarith [exp_one_gt_94, Real.exp_pos 1]

lemma exp_four_gt : (20 : ℝ) < Real.exp 4 := by
  have h : Real.exp 4 = Real.exp 2 * Real.exp 2 := by
    rw [← Real.exp_add]; norm_num
  nlinarith [exp_two_gt, Real.exp_pos 2]

lemma exp_three_gt : (20 : ℝ) < Real.exp 3 := by
  have h3 : Real.exp 3 = Real.exp 1 ^ 3 := by
    rw [← Real.exp_nat_mul]; norm_num
  calc (20:ℝ) < 2.7182818283 ^ 3 := by norm_num
  _ < Real.exp 1 ^ 3 := by
      apply pow_lt_pow_left Real.exp_one_gt_d9 (by norm_num)
      norm_num
  _ = Real.exp 3 := h3.symm

lemma exp_neg_two_lt : Real.exp (-2) < 1/5 := by
  rw [Real.exp_neg]
  calc (Real.exp 2)⁻¹ < ((5:ℝ))⁻¹ := inv_lt_inv_of_lt (by norm_num) exp_two_gt
  _ = 1/5 := by norm_num

lemma exp_neg_three_lt : Real.exp (-3) < 0.05 := by
  rw [Real.exp_neg]
  calc (Real.exp 3)⁻¹ < ((20:ℝ))⁻¹ := inv_lt_inv_of_lt (by norm_num) exp_three_gt
  _ = 0.05 := by norm_num

lemma exp_neg_four_lt : Real.exp (-4) < 0.05 := by
  rw [Real.exp_neg]
  calc (Real.exp 4)⁻¹ < ((20:ℝ))⁻¹ := inv_lt_inv_of_lt (by norm_num) exp_four_gt
  _ = 0.05 := by norm_num

/-! ## Range facts for the three normalizers -/

lemma normalizeLightFactor_nonneg (l : ℝ) : 0 ≤ normalizeLightFactor l := by
  unfold normalizeLightFactor
  split
  · exact le_refl 0
  · next h =>
      have hl : 0 < l := not_le.mp h
      exact le_min (by positivity) zero_le_one

lemma normalizeLightFactor_le_one (l : ℝ) : normalizeLightFactor l ≤ 1 := by
  unfold normalizeLightFactor
  split
  · norm_num
  · exact min_le_right _ _

lemma neg_div_nonpos {c : ℝ} (hc : 0 ≤ c) : -c / 400 ≤ 0 := by
  rw [neg_div]
  exact neg_nonpos.mpr (div_nonneg hc (by norm_num))

lemma normalizeCO2Factor_nonneg (c : ℝ) : 0 ≤ normalizeCO2Factor c := by
  unfold normalizeCO2Factor
  split
  · exact le_refl 0
  · next h =>
      have hc : 0 < c := not_le.mp h
      have hB : 0 ≤ 1 - Real.exp (-c / 400) := by
        have := Real.exp_le_one_iff.mpr (neg_div_nonpos hc.le)
        linarith
      exact le_min (mul_nonneg (le_min (by positivity) zero_le_one) hB) zero_le_one

lemma normalizeCO2Factor_lt_one (c : ℝ) : normalizeCO2Factor c < 1 := by
  unfold normalizeCO2Factor
  split
  · norm_num
  · next h =>
      have hc : 0 < c := not_le.mp h
      have hA : min (c / 400) 1 ≤ 1 := min_le_right _ _
      have hB0 : 0 ≤ 1 - Real.exp (-c / 400) := by
        have := Real.exp_le_one_iff.mpr (neg_div_nonpos hc.le)
        linarith
      have hB : 1 - Real.exp (-c / 400) < 1 := by
        have := Real.exp_pos (-c / 400)
        linarith
      exact lt_of_le_of_lt
        (le_trans (min_le_left _ _) (mul_le_of_le_one_left hB0 hA)) hB

lemma normalizeTemperatureFactor_pos (t : ℝ) :
    0 < normalizeTemperatureFactor t := by
  unfold normalizeTemperatureFactor
  split
  · norm_num
  · split
    · norm_num
    · exact Real.exp_pos _

lemma normalizeTemperatureFactor_le_one (t : ℝ) :
    normalizeTemperatureFactor t ≤ 1 := by
  unfold normalizeTemperatureFactor
  split
  · norm_num
  · split
    · norm_num
    · apply Real.exp_le_one_iff.mpr
      have h : (0:ℝ) ≤ (t - 25) ^ 2 / (2 * 8 * 8) := by positivity
      have h2 : -(t - 25) ^ 2 / (2 * 8 * 8) = -((t - 25) ^ 2 / (2 * 8 * 8)) :=
        neg_div _ _
      rw [h2]
      linarith

/-! ## Monotonicity of the light and CO₂ normalizers -/

lemma normalizeLightFactor_mono : Monotone normalizeLightFactor := by
  intro a b hab
  by_cases ha : a ≤ 0
  · have h0 : normalizeLightFactor a = 0 := by
      unfold normalizeLightFactor; rw [if_pos ha]
    rw [h0]; exact normalizeLightFactor_nonneg b
  · have hb : ¬ b ≤ 0 := fun h => ha (le_trans hab h)
    have ha' : 0 < a := not_le.mp ha
    have hb' : 0 < b := not_le.mp hb
    simp only [normalizeLightFactor, if_neg ha, if_neg hb]
    apply min_le_min _ le_rfl
    rw [div_le_div_iff (by norm_num; linarith) (by norm_num; linarith)]
    nlinarith

lemma normalizeCO2Factor_mono : Monotone normalizeCO2Factor := by
  intro a b hab
  by_cases ha : a ≤ 0
  · have h0 : normalizeCO2Factor a = 0 := by
      unfold normalizeCO2Factor; rw [if_pos ha]
    rw [h0]; exact normalizeCO2Factor_nonneg b
  · have hb : ¬ b ≤ 0 := fun h => ha (le_trans hab h)
    have ha' : 0 < a := not_le.mp ha
    have hb' : 0 < b := not_le.mp hb
    simp only [normalizeCO2Factor, if_neg ha, if_neg hb]
    apply min_le_min _ le_rfl
    have hA : min (a / 400) 1 ≤ min (b / 400) 1 :=
      min_le_min (by gcongr) le_rfl
    have hB : 1 - Real.exp (-a / 400) ≤ 1 - Real.exp (-b / 400) := by
      have : Real.exp (-b / 400) ≤ Real.exp (-a / 400) := by
        apply Real.exp_le_exp.mpr
        rw [neg_div, neg_div]
        apply neg_le_neg
        gcongr
      linarith
    have hB0 : 0 ≤ 1 - Real.exp (-a / 400) := by
      have := Real.exp_le_one_iff.mpr (neg_div_nonpos ha'.le)
      linarith
    have hA0 : 0 ≤ min (b / 400) 1 := le_min (by positivity) zero_le_one
    exact mul_le_mul hA hB hB0 hA0

/-! ## Pointwise evaluations of the normalizers -/

lemma normalizeLightFactor_eval {x : ℝ} (h : 0 < x) :
    normalizeLightFactor x = x / (x + 800 * 0.3) := by
  simp only [normalizeLightFactor, if_neg (not_le.mpr h)]
  exact min_eq_left (le_of_lt ((div_lt_one (by nlinarith)).mpr (by nlinarith)))

lemma normalizeCO2Factor_400 : normalizeCO2Factor 400 = 1 - Real.exp (-1) := by
  have h : ¬ (400:ℝ) ≤ 0 := by norm_num
  simp only [normalizeCO2Factor, if_neg h]
  have h1 : ((400:ℝ) / 400) = 1 := by norm_num
  have h2 : (-(400:ℝ) / 400) = -1 := by norm_num
  rw [h1, h2, min_self, one_mul]
  exact min_eq_left (by linarith [Real.exp_pos (-1)])

lemma normalizeTemperatureFactor_eval {t : ℝ} (h1 : 0 < t) (h2 : t < 45) :
    normalizeTemperatureFactor t = Real.exp (-(t - 25) ^ 2 / (2 * 8 * 8)) := by
  simp only [normalizeTemperatureFactor, if_neg (not_le.mpr h1),
    if_neg (not_le.mpr h2)]

lemma normalizeTemperatureFactor_25 : normalizeTemperatureFactor 25 = 1 := by
  rw [normalizeTemperatureFactor_eval (by norm_num) (by norm_num)]
  have h : (-(25 - 25 : ℝ) ^ 2 / (2 * 8 * 8)) = 0 := by norm_num
  rw [h, Real.exp_zero]

lemma normalizeTemperatureFactor_outside {t : ℝ} (h : t ≤ 0 ∨ 45 ≤ t) :
    normalizeTemperatureFactor t = 0.05 := by
  unfold normalizeTemperatureFactor
  rcases h with h | h
  · rw [if_pos h]
  · by_cases h0 : t ≤ 0
    · rw [if_pos h0]
    · rw [if_neg h0, if_pos h]

end PhotoSpec

namespace PhotoSpec

/-! ## Evaluations of the pipeline at the documented optimal input -/

lemma photo_opt_light :
    (calculatePhotosynthesisRate 800 400 25).factors.light = 10/13 := by
  simp only [calculatePhotosynthesisRate]
  rw [normalizeLightFactor_eval (by norm_num)]
  norm_num

lemma photo_opt_co2 :
    (calculatePhotosynthesisRate 800 400 25).factors.co2 = 1 - Real.exp (-1) := by
  simp only [calculatePhotosynthesisRate]
  exact normalizeCO2Factor_400

lemma photo_opt_temp :
    (calculatePhotosynthesisRate 800 400 25).factors.temperature = 1 := by
  simp only [calculatePhotosynthesisRate]
  exact normalizeTemperatureFactor_25

lemma co2_lt_light_val : (1:ℝ) - Real.exp (-1) < 10/13 := by
  linarith [exp_neg_one_gt]

lemma co2_lt_one_val : (1:ℝ) - Real.exp (-1) < 1 := by
  linarith [Real.exp_pos (-1)]

lemma rate_opt : (calculatePhotosynthesisRate 800 400 25).rate =
    1 - Real.exp (-1) := by
  simp only [calculatePhotosynthesisRate]
  rw [normalizeLightFactor_eval (by norm_num), normalizeCO2Factor_400,
    normalizeTemperatureFactor_25]
  have h0 : (800:ℝ) / (800 + 800 * 0.3) = 10/13 := by norm_num
  rw [h0, min_eq_left co2_lt_one_val.le, min_eq_right co2_lt_light_val.le]

lemma ilf_opt :
    (identifyLimitingFactor
      (calculatePhotosynthesisRate 800 400 25).factors).limitingFactor =
      Factor.co2 := by
  simp only [identifyLimitingFactor]
  rw [photo_opt_light, photo_opt_co2, photo_opt_temp]
  rw [min_eq_left co2_lt_one_val.le, min_eq_right co2_lt_light_val.le]
  rw [if_neg (ne_of_gt co2_lt_light_val), if_pos rfl]

/-! ## Small values of the temperature curve near the range boundaries -/

lemma ntf_small_right {t : ℝ} (h1 : 0 < t) (h2 : t ≤ 1) :
    normalizeTemperatureFactor t ≤ Real.exp (-4) := by
  rw [normalizeTemperatureFactor_eval h1 (by linarith)]
  apply Real.exp_le_exp.mpr
  have hf1 : (0:ℝ) ≤ 25 - t - 24 := by linarith
  have hf2 : (0:ℝ) ≤ 25 - t + 24 := by linarith
  nlinarith [mul_nonneg hf1 hf2]

lemma ntf_small_left {t : ℝ} (h1 : 44.6 ≤ t) (h2 : t < 45) :
    normalizeTemperatureFactor t ≤ Real.exp (-3) := by
  rw [normalizeTemperatureFactor_eval (by linarith) h2]
  apply Real.exp_le_exp.mpr
  have hf1 : (0:ℝ) ≤ t - 25 - 19.6 := by linarith
  have hf2 : (0:ℝ) ≤ t - 25 + 19.6 := by linarith
  nlinarith [mul_nonneg hf1 hf2]

lemma ntf_not_continuousAt_zero :
    ¬ContinuousAt normalizeTemperatureFactor 0 := by
  intro hcont
  rw [Metric.continuousAt_iff] at hcont
  obtain ⟨δ, hδ, hball⟩ := hcont (0.05 - Real.exp (-4))
    (by linarith [exp_neg_four_lt])
  set t := min 1 (δ / 2) with htdef
  have ht0 : 0 < t := lt_min one_pos (by linarith)
  have ht1 : t ≤ 1 := min_le_left _ _
  have hdist : dist t 0 < δ := by
    rw [Real.dist_eq, sub_zero, abs_of_pos ht0]
    calc t ≤ δ / 2 := min_le_right _ _
    _ < δ := by linarith
  have hb := hball hdist
  rw [Real.dist_eq,
    normalizeTemperatureFactor_outside (Or.inl le_rfl)] at hb
  have habs := abs_lt.mp hb
  have hft : normalizeTemperatureFactor t ≤ Real.exp (-4) :=
    ntf_small_right ht0 ht1
  linarith [habs.1]

lemma ntf_not_continuousAt_45 :
    ¬ContinuousAt normalizeTemperatureFactor 45 := by
  intro hcont
  rw [Metric.continuousAt_iff] at hcont
  obtain ⟨δ, hδ, hball⟩ := hcont (0.05 - Real.exp (-3))
    (by linarith [exp_neg_three_lt])
  set t := max 44.6 (45 - δ / 2) with htdef
  have ht1 : (44.6:ℝ) ≤ t := le_max_left _ _
  have ht2 : t < 45 := max_lt (by norm_num) (by linarith)
  have hdist : dist t 45 < δ := by
    rw [Real.dist_eq, abs_of_neg (by linarith : t - 45 < 0)]
    have : 45 - δ / 2 ≤ t := le_max_right _ _
    linarith
  have hb := hball hdist
  rw [Real.dist_eq,
    normalizeTemperatureFactor_outside (Or.inr le_rfl)] at hb
  have habs := abs_lt.mp hb
  have hft : normalizeTemperatureFactor t ≤ Real.exp (-3) :=
    ntf_small_left ht1 ht2
  linarith [habs.1]

/-! ## Claim theorems C1, C8, C9, C10 -/

/-- C1: for every input, `calculatePhotosynthesisRate` returns a rate equal
to the minimum of the three normalized factors it returns, and each of the
three normalized factors lies in [0, 1]. -/
theorem rate_is_min_and_factors_unit :
    ∀ light co2 temperature : ℝ,
      (calculatePhotosynthesisRate light co2 temperature).rate =
        min (calculatePhotosynthesisRate light co2 temperature).factors.light
          (min (calculatePhotosynthesisRate light co2 temperature).factors.co2
            (calculatePhotosynthesisRate light co2 temperature).factors.temperature) ∧
      0 ≤ (calculatePhotosynthesisRate light co2 temperature).factors.light ∧
      (calculatePhotosynthesisRate light co2 temperature).factors.light ≤ 1 ∧
      0 ≤ (calculatePhotosynthesisRate light co2 temperature).factors.co2 ∧
      (calculatePhotosynthesisRate light co2 temperature).factors.co2 ≤ 1 ∧
      0 ≤ (calculatePhotosynthesisRate light co2 temperature).factors.temperature ∧
      (calculatePhotosynthesisRate light co2 temperature).factors.temperature ≤ 1 := by
  intro l c t
  exact ⟨rfl, normalizeLightFactor_nonneg l, normalizeLightFactor_le_one l,
    normalizeCO2Factor_nonneg c, (normalizeCO2Factor_lt_one c).le,
    (normalizeTemperatureFactor_pos t).le, normalizeTemperatureFactor_le_one t⟩

/-- C8: the temperature normalizer is exactly 1 at the optimum 25, takes
equal values at `25 + d` and `25 - d` whenever both lie strictly inside the
viable range (0, 45), and returns the same positive floor 0.05 at every
temperature at or below 0 or at or above 45. -/
theorem temperature_normalizer_shape :
    normalizeTemperatureFactor 25 = 1 ∧
    (∀ d : ℝ, 0 < 25 + d → 25 + d < 45 → 0 < 25 - d → 25 - d < 45 →
      normalizeTemperatureFactor (25 + d) = normalizeTemperatureFactor (25 - d)) ∧
    (∀ t : ℝ, t ≤ 0 ∨ 45 ≤ t → normalizeTemperatureFactor t = 0.05) ∧
    (0:ℝ) < 0.05 := by
  refine ⟨normalizeTemperatureFactor_25, ?_,
    fun t ht => normalizeTemperatureFactor_outside ht, by norm_num⟩
  intro d h1 h2 h3 h4
  rw [normalizeTemperatureFactor_eval h1 h2,
    normalizeTemperatureFactor_eval h3 h4]
  congr 1
  ring

/-- Witness for C8: the symmetry equation at `d = 10` and the floor at the
out-of-range temperature 50. -/
theorem temperature_normalizer_shape_witness :
    ((0:ℝ) < 25 + 10 ∧ (25:ℝ) + 10 < 45 ∧ (0:ℝ) < 25 - 10 ∧ (25:ℝ) - 10 < 45 ∧
      normalizeTemperatureFactor (25 + 10) = normalizeTemperatureFactor (25 - 10)) ∧
    (((50:ℝ) ≤ 0 ∨ (45:ℝ) ≤ 50) ∧ normalizeTemperatureFactor 50 = 0.05) :=
  ⟨⟨by norm_num, by norm_num, by norm_num, by norm_num,
    temperature_normalizer_shape.2.1 10 (by norm_num) (by norm_num)
      (by norm_num) (by norm_num)⟩,
   Or.inr (by norm_num),
   temperature_normalizer_shape.2.2.1 50 (Or.inr (by norm_num))⟩

/-- C9: the CO₂ normalizer never reaches its cap of 1; at the reference
optimum 400 ppm it returns exactly `1 - e⁻¹`; hence at the documented
optimal input (light 800, co2 400, temperature 25) the CO₂ factor is the
strict minimum of the three and is reported as the limiting factor. -/
theorem co2_cap_never_attained_and_limiting_at_optimum :
    (∀ co2 : ℝ, normalizeCO2Factor co2 < 1) ∧
    normalizeCO2Factor 400 = 1 - Real.exp (-1) ∧
    (calculatePhotosynthesisRate 800 400 25).factors.co2 <
      (calculatePhotosynthesisRate 800 400 25).factors.light ∧
    (calculatePhotosynthesisRate 800 400 25).factors.co2 <
      (calculatePhotosynthesisRate 800 400 25).factors.temperature ∧
    (identifyLimitingFactor
      (calculatePhotosynthesisRate 800 400 25).factors).limitingFactor =
      Factor.co2 :=
  ⟨normalizeCO2Factor_lt_one, normalizeCO2Factor_400,
   by rw [photo_opt_co2, photo_opt_light]; exact co2_lt_light_val,
   by rw [photo_opt_co2, photo_opt_temp]; exact co2_lt_one_val,
   ilf_opt⟩

/-- C10: the temperature 2 lies strictly inside the viable range (0, 45)
yet scores strictly below the 0.05 floor, in particular strictly worse than
the out-of-range temperature -3; consequently the temperature normalizer is
discontinuous at both range boundaries 0 and 45. -/
theorem temperature_floor_inversion_and_discontinuity :
    ((0:ℝ) < 2 ∧ (2:ℝ) < 45 ∧ normalizeTemperatureFactor 2 < 0.05) ∧
    (normalizeTemperatureFactor (-3) = 0.05 ∧
      normalizeTemperatureFactor 2 < normalizeTemperatureFactor (-3)) ∧
    ¬ContinuousAt normalizeTemperatureFactor 0 ∧
    ¬ContinuousAt normalizeTemperatureFactor 45 := by
  have hout : normalizeTemperatureFactor (-3) = 0.05 :=
    normalizeTemperatureFactor_outside (Or.inl (by norm_num))
  have h2 : normalizeTemperatureFactor 2 < 0.05 := by
    rw [normalizeTemperatureFactor_eval (by norm_num) (by norm_num)]
    have hle : (-(2 - 25 : ℝ) ^ 2 / (2 * 8 * 8)) ≤ -4 := by norm_num
    exact lt_of_le_of_lt (Real.exp_le_exp.mpr hle) exp_neg_four_lt
  exact ⟨⟨by norm_num, by norm_num, h2⟩, ⟨hout, by rw [hout]; exact h2⟩,
    ntf_not_continuousAt_zero, ntf_not_continuousAt_45⟩

end PhotoSpec

namespace PhotoSpec

/-! ## Tie-break behaviour of the two limiting-factor analyzers -/

lemma ilf_light_case {nf : NormalizedFactors} (h1 : nf.light ≤ nf.co2)
    (h2 : nf.light ≤ nf.temperature) :
    (identifyLimitingFactor nf).limitingFactor = Factor.light := by
  simp only [identifyLimitingFactor]
  rw [min_eq_left (le_min h1 h2), if_pos rfl]

lemma ilf_co2_case {nf : NormalizedFactors} (h1 : nf.co2 < nf.light)
    (h2 : nf.co2 ≤ nf.temperature) :
    (identifyLimitingFactor nf).limitingFactor = Factor.co2 := by
  simp only [identifyLimitingFactor]
  rw [min_eq_left h2, min_eq_right h1.le, if_neg (ne_of_gt h1), if_pos rfl]

lemma ilf_temp_case {nf : NormalizedFactors} (h1 : nf.temperature < nf.light)
    (h2 : nf.temperature < nf.co2) :
    (identifyLimitingFactor nf).limitingFactor = Factor.temperature := by
  simp only [identifyLimitingFactor]
  rw [min_eq_right h2.le, min_eq_right h1.le, if_neg (ne_of_gt h1),
    if_neg (ne_of_gt h2)]

lemma bio_temp_case {f : BiologyEngine.BioFactors}
    (h1 : BiologyEngine.tempEfficiency f.temperature ≤
      BiologyEngine.lightEfficiency f.light)
    (h2 : BiologyEngine.tempEfficiency f.temperature ≤
      BiologyEngine.co2Efficiency f.co2) :
    BiologyEngine.identifyLimitingFactor f = Factor.temperature := by
  simp only [BiologyEngine.identifyLimitingFactor]
  rw [min_eq_right h2, min_eq_right h1, if_pos rfl]

lemma bio_light_case {f : BiologyEngine.BioFactors}
    (h1 : BiologyEngine.lightEfficiency f.light <
      BiologyEngine.tempEfficiency f.temperature)
    (h2 : BiologyEngine.lightEfficiency f.light ≤
      BiologyEngine.co2Efficiency f.co2) :
    BiologyEngine.identifyLimitingFactor f = Factor.light := by
  simp only [BiologyEngine.identifyLimitingFactor]
  rw [min_eq_left (le_min h2 h1.le), if_neg (ne_of_gt h1), if_pos rfl]

lemma bio_co2_case {f : BiologyEngine.BioFactors}
    (h1 : BiologyEngine.co2Efficiency f.co2 <
      BiologyEngine.tempEfficiency f.temperature)
    (h2 : BiologyEngine.co2Efficiency f.co2 <
      BiologyEngine.lightEfficiency f.light) :
    BiologyEngine.identifyLimitingFactor f = Factor.co2 := by
  simp only [BiologyEngine.identifyLimitingFactor]
  rw [min_eq_left h1.le, min_eq_right h2.le, if_neg (ne_of_gt h1),
    if_neg (ne_of_gt h2)]

lemma bioLight_85 : BiologyEngine.lightEfficiency 85 = 1 := by
  simp only [BiologyEngine.lightEfficiency]
  rw [if_neg (by norm_num), if_pos (by norm_num : (85:ℝ) ≤ 85)]
  norm_num

lemma bioCo2_400 : BiologyEngine.co2Efficiency 400 = 1 := by
  simp only [BiologyEngine.co2Efficiency]
  rw [if_neg (by norm_num)]
  norm_num

lemma bioTemp_25 : BiologyEngine.tempEfficiency 25 = 1 := by
  simp only [BiologyEngine.tempEfficiency]
  rw [if_neg (by norm_num)]
  rw [show |(25:ℝ) - 25| = 0 by rw [sub_self, abs_zero]]
  norm_num

/-- C2 (amended): limitingFactor.js's `identifyLimitingFactor` (the entry
point that takes NormalizedFactors) breaks minimum ties in the fixed
priority order light > co2 > temperature — light wins any tie it is part
of and co2 beats temperature — while biologyEngine.js's raw-factor
`identifyLimitingFactor` breaks efficiency ties in the order
temperature > light > co2. -/
theorem limiting_tie_break_priority :
    (∀ nf : NormalizedFactors,
      (nf.light ≤ nf.co2 → nf.light ≤ nf.temperature →
        (identifyLimitingFactor nf).limitingFactor = Factor.light) ∧
      (nf.co2 < nf.light → nf.co2 ≤ nf.temperature →
        (identifyLimitingFactor nf).limitingFactor = Factor.co2) ∧
      (nf.temperature < nf.light → nf.temperature < nf.co2 →
        (identifyLimitingFactor nf).limitingFactor = Factor.temperature)) ∧
    (∀ f : BiologyEngine.BioFactors,
      (BiologyEngine.tempEfficiency f.temperature ≤
          BiologyEngine.lightEfficiency f.light →
        BiologyEngine.tempEfficiency f.temperature ≤
          BiologyEngine.co2Efficiency f.co2 →
        BiologyEngine.identifyLimitingFactor f = Factor.temperature) ∧
      (BiologyEngine.lightEfficiency f.light <
          BiologyEngine.tempEfficiency f.temperature →
        BiologyEngine.lightEfficiency f.light ≤
          BiologyEngine.co2Efficiency f.co2 →
        BiologyEngine.identifyLimitingFactor f = Factor.light) ∧
      (BiologyEngine.co2Efficiency f.co2 <
          BiologyEngine.tempEfficiency f.temperature →
        BiologyEngine.co2Efficiency f.co2 <
          BiologyEngine.lightEfficiency f.light →
        BiologyEngine.identifyLimitingFactor f = Factor.co2)) :=
  ⟨fun _ => ⟨fun h1 h2 => ilf_light_case h1 h2,
    fun h1 h2 => ilf_co2_case h1 h2,
    fun h1 h2 => ilf_temp_case h1 h2⟩,
   fun _ => ⟨fun h1 h2 => bio_temp_case h1 h2,
    fun h1 h2 => bio_light_case h1 h2,
    fun h1 h2 => bio_co2_case h1 h2⟩⟩

/-- Witness for C2 (amended): the all-tied input selects light in
limitingFactor.js and temperature in biologyEngine.js. -/
theorem limiting_tie_break_priority_witness :
    ((0.3:ℝ) ≤ 0.3 ∧
      (identifyLimitingFactor ⟨0.3, 0.3, 0.3⟩).limitingFactor = Factor.light) ∧
    (BiologyEngine.tempEfficiency (25:ℝ) ≤ BiologyEngine.lightEfficiency 85 ∧
     BiologyEngine.tempEfficiency (25:ℝ) ≤ BiologyEngine.co2Efficiency 400 ∧
     BiologyEngine.identifyLimitingFactor ⟨85, 400, 25⟩ = Factor.temperature) := by
  have h1 : BiologyEngine.tempEfficiency (25:ℝ) ≤
      BiologyEngine.lightEfficiency 85 := by
    rw [bioTemp_25, bioLight_85]
  have h2 : BiologyEngine.tempEfficiency (25:ℝ) ≤
      BiologyEngine.co2Efficiency 400 := by
    rw [bioTemp_25, bioCo2_400]
  exact ⟨⟨le_rfl,
    (limiting_tie_break_priority.1 ⟨0.3, 0.3, 0.3⟩).1 le_rfl le_rfl⟩,
    h1, h2, (limiting_tie_break_priority.2 ⟨85, 400, 25⟩).1 h1 h2⟩

/-- Counterexample to C2 as stated: on the normalized factors
(0.3, 0.5, 0.3), light and temperature tie at the minimum, and
limitingFactor.js's `identifyLimitingFactor` selects light, not
temperature. -/
theorem limiting_tie_break_counterexample :
    (identifyLimitingFactor ⟨0.3, 0.5, 0.3⟩).limitingFactor = Factor.light ∧
    Factor.light ≠ Factor.temperature :=
  ⟨ilf_light_case (by norm_num) le_rfl, by decide⟩

/-! ## validateChange -/

/-- C5: `validateChange` returns false whenever the changed factor is not
the current limiting factor; when it is, temperature improves exactly when
the proposed value is strictly closer to the optimum 25 than the current
one, and light and CO₂ improve exactly when the proposed value is strictly
greater than the current one. -/
theorem validateChange_characterization :
    ∀ (p : ℝ) (cv : RawValues),
      (∀ f lim : Factor, f ≠ lim → validateChange f p cv lim = false) ∧
      (validateChange Factor.temperature p cv Factor.temperature = true ↔
        |p - 25| < |cv.temperature - 25|) ∧
      (validateChange Factor.light p cv Factor.light = true ↔ cv.light < p) ∧
      (validateChange Factor.co2 p cv Factor.co2 = true ↔ cv.co2 < p) := by
  intro p cv
  refine ⟨fun f lim hne => ?_, ?_, ?_, ?_⟩
  · simp only [validateChange, if_pos hne]
  · simp only [validateChange, RawValues.get]
    rw [if_neg (fun h => h rfl)]
    simp
  · simp only [validateChange, RawValues.get]
    rw [if_neg (fun h => h rfl)]
    simp
  · simp only [validateChange, RawValues.get]
    rw [if_neg (fun h => h rfl)]
    simp

/-- Witness for C5: the spec's own example (changing CO₂ while light is
limiting is rejected), one improving temperature move, and one improving
light increase. -/
theorem validateChange_characterization_witness :
    (Factor.co2 ≠ Factor.light ∧
      validateChange Factor.co2 600 ⟨100, 400, 25⟩ Factor.light = false) ∧
    validateChange Factor.temperature 24 ⟨0, 0, 30⟩ Factor.temperature = true ∧
    validateChange Factor.light 900 ⟨800, 400, 25⟩ Factor.light = true := by
  have habs : |(24:ℝ) - 25| < |(30:ℝ) - 25| := by
    rw [show (24:ℝ) - 25 = -1 by norm_num, show (30:ℝ) - 25 = 5 by norm_num,
      abs_neg, abs_one, abs_of_nonneg (by norm_num : (0:ℝ) ≤ 5)]
    norm_num
  exact ⟨⟨by decide,
      (validateChange_characterization 600 ⟨100, 400, 25⟩).1 Factor.co2
        Factor.light (by decide)⟩,
    (validateChange_characterization 24 ⟨0, 0, 30⟩).2.1.mpr habs,
    (validateChange_characterization 900 ⟨800, 400, 25⟩).2.2.1.mpr
      (by norm_num)⟩

end PhotoSpec

namespace PhotoSpec

/-! ## Invariance of the rate under increases of a non-limiting factor -/

lemma min_unchanged {x x2 y : ℝ} (hx : x ≤ x2) (hne : x ≠ min x y) :
    min x2 y = min x y := by
  have hyx : y < x := by
    rcases le_or_lt x y with h | h
    · exact absurd (min_eq_left h).symm hne
    · exact h
  rw [min_eq_right hyx.le, min_eq_right (by linarith : y ≤ x2)]

lemma l59_lt : (5/9:ℝ) < 1 - Real.exp (-1) := by
  linarith [exp_neg_one_lt]

lemma l517_lt : (5/17:ℝ) < 1 - Real.exp (-1) := by
  linarith [exp_neg_one_lt]

lemma rate_300 : (calculatePhotosynthesisRate 300 400 25).rate = 5/9 := by
  simp only [calculatePhotosynthesisRate]
  rw [normalizeLightFactor_eval (by norm_num), normalizeCO2Factor_400,
    normalizeTemperatureFactor_25]
  have h0 : (300:ℝ) / (300 + 800 * 0.3) = 5/9 := by norm_num
  rw [h0, min_eq_left co2_lt_one_val.le, min_eq_left l59_lt.le]

lemma ntf_44_le : normalizeTemperatureFactor 44 ≤ Real.exp (-2) := by
  rw [normalizeTemperatureFactor_eval (by norm_num) (by norm_num)]
  apply Real.exp_le_exp.mpr
  norm_num

lemma rate_300_44 : (calculatePhotosynthesisRate 300 400 44).rate =
    normalizeTemperatureFactor 44 := by
  simp only [calculatePhotosynthesisRate]
  rw [normalizeLightFactor_eval (by norm_num), normalizeCO2Factor_400]
  have h0 : (300:ℝ) / (300 + 800 * 0.3) = 5/9 := by norm_num
  have hlt1 : normalizeTemperatureFactor 44 < 1 - Real.exp (-1) :=
    lt_of_le_of_lt ntf_44_le (by linarith [exp_neg_two_lt, exp_neg_one_lt])
  have hlt2 : normalizeTemperatureFactor 44 < 5/9 :=
    lt_of_le_of_lt ntf_44_le (by linarith [exp_neg_two_lt])
  rw [h0, min_eq_right hlt1.le, min_eq_right hlt2.le]

lemma rate_100 : (calculatePhotosynthesisRate 100 400 25).rate = 5/17 := by
  simp only [calculatePhotosynthesisRate]
  rw [normalizeLightFactor_eval (by norm_num), normalizeCO2Factor_400,
    normalizeTemperatureFactor_25]
  have h0 : (100:ℝ) / (100 + 800 * 0.3) = 5/17 := by norm_num
  rw [h0, min_eq_left co2_lt_one_val.le, min_eq_left l517_lt.le]

/-- C3 (amended): increasing the raw light or the raw CO₂ input while its
normalized factor is not the current minimum leaves the computed rate
unchanged (their normalizers are monotone); the temperature input is
excluded, because its bell-shaped normalizer can drop below the current
minimum when temperature increases. -/
theorem nonlimiting_increase_keeps_rate :
    ∀ l l2 c c2 t : ℝ,
      (l ≤ l2 →
        (calculatePhotosynthesisRate l c t).factors.light ≠
          (calculatePhotosynthesisRate l c t).rate →
        (calculatePhotosynthesisRate l2 c t).rate =
          (calculatePhotosynthesisRate l c t).rate) ∧
      (c ≤ c2 →
        (calculatePhotosynthesisRate l c t).factors.co2 ≠
          (calculatePhotosynthesisRate l c t).rate →
        (calculatePhotosynthesisRate l c2 t).rate =
          (calculatePhotosynthesisRate l c t).rate) := by
  intro l l2 c c2 t
  constructor
  · intro hle hne
    exact min_unchanged (normalizeLightFactor_mono hle) hne
  · intro hle hne
    show min (normalizeLightFactor l)
        (min (normalizeCO2Factor c2) (normalizeTemperatureFactor t)) =
      min (normalizeLightFactor l)
        (min (normalizeCO2Factor c) (normalizeTemperatureFactor t))
    rw [min_left_comm (normalizeLightFactor l) (normalizeCO2Factor c2),
      min_left_comm (normalizeLightFactor l) (normalizeCO2Factor c)]
    apply min_unchanged (normalizeCO2Factor_mono hle)
    intro h
    apply hne
    show normalizeCO2Factor c =
      min (normalizeLightFactor l)
        (min (normalizeCO2Factor c) (normalizeTemperatureFactor t))
    rw [min_left_comm]
    exact h

/-- Witness for C3 (amended): at (800, 400, 25) light is not the minimum
and raising it to 1000 keeps the rate; at (100, 400, 25) CO₂ is not the
minimum and raising it to 800 keeps the rate. -/
theorem nonlimiting_increase_keeps_rate_witness :
    ((800:ℝ) ≤ 1000 ∧
      (calculatePhotosynthesisRate 800 400 25).factors.light ≠
        (calculatePhotosynthesisRate 800 400 25).rate ∧
      (calculatePhotosynthesisRate 1000 400 25).rate =
        (calculatePhotosynthesisRate 800 400 25).rate) ∧
    ((400:ℝ) ≤ 800 ∧
      (calculatePhotosynthesisRate 100 400 25).factors.co2 ≠
        (calculatePhotosynthesisRate 100 400 25).rate ∧
      (calculatePhotosynthesisRate 100 800 25).rate =
        (calculatePhotosynthesisRate 100 400 25).rate) := by
  have hne1 : (calculatePhotosynthesisRate 800 400 25).factors.light ≠
      (calculatePhotosynthesisRate 800 400 25).rate := by
    rw [photo_opt_light, rate_opt]
    exact ne_of_gt co2_lt_light_val
  have hne2 : (calculatePhotosynthesisRate 100 400 25).factors.co2 ≠
      (calculatePhotosynthesisRate 100 400 25).rate := by
    have hc : (calculatePhotosynthesisRate 100 400 25).factors.co2 =
        1 - Real.exp (-1) := normalizeCO2Factor_400
    rw [hc, rate_100]
    exact ne_of_gt l517_lt
  exact ⟨⟨by norm_num, hne1,
      (nonlimiting_increase_keeps_rate 800 1000 400 400 25).1 (by norm_num) hne1⟩,
    ⟨by norm_num, hne2,
      (nonlimiting_increase_keeps_rate 100 100 400 800 25).2 (by norm_num) hne2⟩⟩

/-- Counterexample to C3 as stated: at (300, 400, 25) the temperature
factor is not the minimum, yet increasing the raw temperature from 25 to 44
changes the rate. -/
theorem nonlimiting_increase_counterexample :
    (25:ℝ) ≤ 44 ∧
    (calculatePhotosynthesisRate 300 400 25).factors.temperature ≠
      (calculatePhotosynthesisRate 300 400 25).rate ∧
    (calculatePhotosynthesisRate 300 400 44).rate ≠
      (calculatePhotosynthesisRate 300 400 25).rate := by
  refine ⟨by norm_num, ?_, ?_⟩
  · have ht : (calculatePhotosynthesisRate 300 400 25).factors.temperature = 1 :=
      normalizeTemperatureFactor_25
    rw [ht, rate_300]
    norm_num
  · rw [rate_300_44, rate_300]
    exact ne_of_lt (lt_of_le_of_lt ntf_44_le (by linarith [exp_neg_two_lt]))

end PhotoSpec

namespace PhotoSpec

/-! ## The per-day growth step (stress accumulation and penalty) -/

/-- C7 (amended): in each day step, when the rate is below the stress
threshold 0.4 the stress accumulator grows by exactly `0.4 - rate` and the
grown biomass is reduced by `biomass × min(stress × 0.02, 0.3) × 0.01` —
so the cap of 0.3 on the penalty term corresponds to a maximal daily
biomass reduction of 0.3%, not 30%; otherwise the stress accumulator
decays by the recovery step 0.1, floored at 0, and biomass is not
penalized. -/
theorem growth_step_stress_and_penalty :
    ∀ rate biomass stress : ℝ,
      (rate < 0.4 →
        growthStep rate biomass stress =
          (biomass * (rate * 0.05),
           (biomass + biomass * (rate * 0.05)) -
             (biomass + biomass * (rate * 0.05)) *
               min ((stress + (0.4 - rate)) * 0.02) 0.3 * 0.01,
           stress + (0.4 - rate))) ∧
      (0.4 ≤ rate →
        growthStep rate biomass stress =
          (biomass * (rate * 0.05), biomass + biomass * (rate * 0.05),
           max 0 (stress - 0.1))) := by
  intro rate b s
  constructor
  · intro h
    simp only [growthStep, if_pos h]
  · intro h
    simp only [growthStep, if_neg (not_lt.mpr h)]

/-- Witness for C7 (amended): the stressed branch at rate 0.2 and the
recovery branch at rate 0.5. -/
theorem growth_step_stress_and_penalty_witness :
    ((0.2:ℝ) < 0.4 ∧
      growthStep 0.2 100 0 =
        (100 * (0.2 * 0.05),
         (100 + 100 * (0.2 * 0.05)) -
           (100 + 100 * (0.2 * 0.05)) *
             min ((0 + (0.4 - 0.2)) * 0.02) 0.3 * 0.01,
         0 + (0.4 - 0.2))) ∧
    ((0.4:ℝ) ≤ 0.5 ∧
      growthStep 0.5 100 1 =
        (100 * (0.5 * 0.05), 100 + 100 * (0.5 * 0.05), max 0 (1 - 0.1))) :=
  ⟨⟨by norm_num, (growth_step_stress_and_penalty 0.2 100 0).1 (by norm_num)⟩,
   ⟨by norm_num, (growth_step_stress_and_penalty 0.5 100 1).2 (by norm_num)⟩⟩

/-- Counterexample to C7 as stated: at rate 0, biomass 100, stress 20 the
step leaves biomass 99.7 (a 0.3% reduction), while a penalty of
`min(stress × 0.02, 0.3)` applied proportionally to biomass — a 30% cap —
would leave 70. -/
theorem growth_step_cap_counterexample :
    (growthStep 0 100 20).2.1 = 99.7 ∧
    (100:ℝ) - 100 * min ((20 + (0.4 - 0)) * 0.02) 0.3 = 70 ∧
    (99.7:ℝ) ≠ 70 := by
  have hmin : min (((20:ℝ) + (0.4 - 0)) * 0.02) 0.3 = 0.3 :=
    min_eq_right (by norm_num)
  refine ⟨?_, ?_, by norm_num⟩
  · simp only [growthStep, if_pos (show (0:ℝ) < 0.4 by norm_num)]
    rw [hmin]
    norm_num
  · rw [hmin]; norm_num

/-! ## Non-negativity of the simulated biomass -/

lemma rate_nonneg (l c t : ℝ) : 0 ≤ (calculatePhotosynthesisRate l c t).rate :=
  le_min (normalizeLightFactor_nonneg l)
    (le_min (normalizeCO2Factor_nonneg c) (normalizeTemperatureFactor_pos t).le)

lemma growthStep_biomass_nonneg {rate b : ℝ} (s : ℝ) (hr : 0 ≤ rate)
    (hb : 0 ≤ b) : 0 ≤ (growthStep rate b s).2.1 := by
  simp only [growthStep]
  split
  · have hgrown : 0 ≤ b + b * (rate * 0.05) := by nlinarith
    have hm : min ((s + (0.4 - rate)) * 0.02) 0.3 ≤ 0.3 := min_le_right _ _
    show 0 ≤ b + b * (rate * 0.05) -
      (b + b * (rate * 0.05)) * min ((s + (0.4 - rate)) * 0.02) 0.3 * 0.01
    nlinarith [mul_le_mul_of_nonneg_left hm hgrown]
  · show 0 ≤ b + b * (rate * 0.05)
    nlinarith

lemma roundTo2_nonneg {x : ℝ} (hx : 0 ≤ x) : 0 ≤ roundTo2 x := by
  unfold roundTo2
  apply div_nonneg _ (by norm_num)
  have h : (0:ℤ) ≤ round (x * 100) := by
    rw [round_eq]
    apply Int.floor_nonneg.mpr
    nlinarith
  exact_mod_cast h

lemma simulateGrowthAux_nonneg (conditions : Conditions) :
    ∀ (remaining : ℕ) (b s : ℝ) (day : ℕ), 0 ≤ b →
      nonNegBiomass (simulateGrowthAux conditions b s day remaining) := by
  intro remaining
  induction remaining with
  | zero =>
      intro b s day hb r hr
      simp [simulateGrowthAux] at hr
  | succ n ih =>
      intro b s day hb r hr
      simp only [simulateGrowthAux, List.mem_cons] at hr
      have hstep : 0 ≤ (growthStep
          (calculatePhotosynthesisRate conditions.light conditions.co2
            conditions.temperature).rate b s).2.1 :=
        growthStep_biomass_nonneg s (rate_nonneg _ _ _) hb
      rcases hr with rfl | hr
      · exact roundTo2_nonneg hstep
      · exact ih _ _ (day + 1) hstep r hr

/-- C6: simulating zero days yields an empty trajectory for every
conditions and initial biomass, and from any non-negative initial biomass
every recorded biomass of every trajectory is non-negative. -/
theorem simulate_growth_empty_and_nonneg :
    ∀ (conditions : Conditions) (B0 : ℝ),
      simulateGrowth conditions 0 B0 = [] ∧
      (0 ≤ B0 → ∀ days : ℕ,
        nonNegBiomass (simulateGrowth conditions days B0)) := by
  intro c B0
  exact ⟨rfl, fun hB days => simulateGrowthAux_nonneg c days B0 0 1 hB⟩

/-- Witness for C6: the two-day trajectory from biomass 100 under the
documented optimal conditions. -/
theorem simulate_growth_empty_and_nonneg_witness :
    (0:ℝ) ≤ 100 ∧ nonNegBiomass (simulateGrowth ⟨800, 400, 25⟩ 2 100) :=
  ⟨by norm_num,
    (simulate_growth_empty_and_nonneg ⟨800, 400, 25⟩ 100).2 (by norm_num) 2⟩

/-! ## compareScenarios on identical scenarios -/

lemma simulateGrowthAux_length (conditions : Conditions) :
    ∀ (remaining : ℕ) (b s : ℝ) (day : ℕ),
      (simulateGrowthAux conditions b s day remaining).length = remaining := by
  intro remaining
  induction remaining with
  | zero => intro b s day; rfl
  | succ n ih =>
      intro b s day
      simp only [simulateGrowthAux, List.length_cons, ih]

lemma cons_getLast?_isSome :
    ∀ (l : List DayRecord) (a : DayRecord), ∃ x, (a :: l).getLast? = some x := by
  intro l
  induction l with
  | nil => intro a; exact ⟨a, rfl⟩
  | cons b t ih =>
      intro a
      obtain ⟨x, hx⟩ := ih b
      exact ⟨x, by rw [List.getLast?_cons_cons]; exact hx⟩

lemma compareScenarios_self (A : Conditions) (days : ℕ) (hdays : 0 < days) :
    ∃ comp, compareScenarios A A days = some comp ∧
      comp.biomassDifference = 0 ∧ comp.betterScenario = "baseline" := by
  obtain ⟨last, hlast⟩ : ∃ x, (simulateGrowth A days 100).getLast? = some x := by
    have hlen : (simulateGrowth A days 100).length = days :=
      simulateGrowthAux_length A days 100 0 1
    cases h : simulateGrowth A days 100 with
    | nil => rw [h] at hlen; simp at hlen; omega
    | cons a l => exact cons_getLast?_isSome l a
  have hcomp : compareScenarios A A days = some
      { baselineFinalBiomass := last.biomass
        alternativeFinalBiomass := last.biomass
        biomassDifference := roundTo2 (last.biomass - last.biomass)
        percentImprovement :=
          roundTo1 ((last.biomass - last.biomass) / last.biomass * 100)
        betterScenario :=
          if 0 < last.biomass - last.biomass then "alternative"
          else "baseline" } := by
    simp only [compareScenarios, hlast]
  refine ⟨_, hcomp, ?_, ?_⟩
  · show roundTo2 (last.biomass - last.biomass) = 0
    rw [sub_self]
    unfold roundTo2
    rw [zero_mul, round_zero]
    norm_num
  · show (if 0 < last.biomass - last.biomass then "alternative"
      else "baseline") = "baseline"
    rw [sub_self]
    exact if_neg (lt_irrefl 0)

/-- C4 (amended): comparing a scenario with itself over a positive number
of days reports a biomass difference of exactly 0, but the
`betterScenario` field names the baseline scenario rather than denoting a
tie. -/
theorem compare_identical_scenarios :
    ∀ (A : Conditions) (days : ℕ), 0 < days →
      comparisonDiff (compareScenarios A A days) = some 0 ∧
      comparisonBetter (compareScenarios A A days) = some "baseline" := by
  intro A days hdays
  obtain ⟨comp, hc, hd, hb⟩ := compareScenarios_self A days hdays
  constructor
  · simp [comparisonDiff, hc, hd]
  · simp [comparisonBetter, hc, hb]

/-- Witness for C4 (amended): the one-day self-comparison under the
documented optimal conditions. -/
theorem compare_identical_scenarios_witness :
    0 < 1 ∧
    comparisonDiff (compareScenarios ⟨800, 400, 25⟩ ⟨800, 400, 25⟩ 1) =
      some 0 ∧
    comparisonBetter (compareScenarios ⟨800, 400, 25⟩ ⟨800, 400, 25⟩ 1) =
      some "baseline" :=
  ⟨by norm_num,
    (compare_identical_scenarios ⟨800, 400, 25⟩ 1 (by norm_num)).1,
    (compare_identical_scenarios ⟨800, 400, 25⟩ 1 (by norm_num)).2⟩

/-- Counterexample to C4 as stated: the self-comparison's
`betterScenario` is the string "baseline" — it names one of the two
identical scenarios instead of being undefined. -/
theorem compare_identical_scenarios_counterexample :
    comparisonBetter (compareScenarios ⟨800, 400, 25⟩ ⟨800, 400, 25⟩ 1) =
      some "baseline" ∧
    (some "baseline" : Option String) ≠ none := by
  obtain ⟨comp, hc, hd, hb⟩ :=
    compareScenarios_self ⟨800, 400, 25⟩ 1 (by norm_num)
  exact ⟨by simp [comparisonBetter, hc, hb], by simp⟩

end PhotoSpec
